import Mathlib

/-!
Verification of the `checks` module of the community.healthchecksio
Ansible collection (plugins/modules/checks.py).

The module is a declarative REST client with three operations dispatched
on the requested lifecycle state: create-or-update (`present`), delete
(`absent`) and pause (`pause`).  We embed the module's parameter bag, the
three operations of the `Checks` class, the `run` dispatcher and the
`main` entry point as pure Lean functions.  Each operation takes the
simulate-only (check-mode) flag, the validated parameters and the remote
HTTP response, and returns the structured outcome together with the list
of outbound HTTP requests it issued.
-/

/-- A value of the flat parameter dictionary: the module's parameters are
strings, integers, booleans or lists of strings. -/
inductive PValue where
  | str (s : String)
  | int (i : Int)
  | bool (b : Bool)
  | strList (l : List String)
deriving DecidableEq, Repr

/-- The validated parameter bag of the module, one field per entry of the
argument spec declared in `main` (the api_token entry is popped by the
`Checks` constructor before any operation runs and never reappears, so it
is not modelled). -/
structure Params where
  state : String
  name : String
  tags : List String
  desc : String
  timeout : Int
  grace : Int
  schedule : String
  tz : String
  manual_resume : Bool
  methods : String
  channels : String
  unique : List String
  uuid : String
deriving DecidableEq, Repr

/-- A remote HTTP response: the status code and the decoded JSON body,
modelled as an association list of string-valued fields (the module only
ever reads the `ping_url` field and passes the body through). -/
structure Response where
  status_code : Nat
  json : List (String × String)
deriving DecidableEq, Repr

/-- An outbound HTTP request issued through the REST helper:
`rest.post(endpoint, data)` or `rest.delete(endpoint)`. -/
inductive Request where
  | post (endpoint : String) (data : Option (List (String × PValue)))
  | httpDelete (endpoint : String)
deriving DecidableEq, Repr

/-- The structured outcome reported to the invoking runner:
`exit_json(changed=..., msg=..., data=...)`, `fail_json(changed=..., msg=...)`,
or an uncaught Python exception (e.g. `AttributeError` from calling
`.split` on `None`, `IndexError` from indexing past the end). -/
inductive ModuleResult where
  | exit (changed : Bool) (msg : Option String) (data : Option (List (String × String)))
  | fail (changed : Bool) (msg : String)
  | pyError (err : String)
deriving DecidableEq, Repr

/-- Python `json_data.get(k)` on the decoded response body: the value of the
first field named `k`, if any. -/
def jsonGet (j : List (String × String)) (k : String) : Option String :=
  (j.find? (fun kv => kv.1 = k)).map (fun kv => kv.2)

/-- The Python expression `s.split("/")`: cut `s` at every `'/'`, keeping empty
segments, so that the result always has one more element than the number
of slashes. -/
def pySplitSlash (s : String) : List String :=
  go s.data []
where
  /-- Walk the characters, accumulating the current segment reversed. -/
  go : List Char → List Char → List String
    | [], acc => [String.mk acc.reverse]
    | c :: cs, acc =>
        if c = '/' then String.mk acc.reverse :: go cs []
        else go cs (c :: acc)

/-- The parameter dictionary as `dict(self.module.params)` sees it inside
the `Checks` operations: every argument-spec field except `state` (popped
by `run`) and `api_token` (popped by the constructor), in declaration
order. -/
def moduleParams (p : Params) : List (String × PValue) :=
  [("name", .str p.name),
   ("tags", .strList p.tags),
   ("desc", .str p.desc),
   ("timeout", .int p.timeout),
   ("grace", .int p.grace),
   ("schedule", .str p.schedule),
   ("tz", .str p.tz),
   ("manual_resume", .bool p.manual_resume),
   ("methods", .str p.methods),
   ("channels", .str p.channels),
   ("unique", .strList p.unique),
   ("uuid", .str p.uuid)]

/-- The request body built by `Checks.create`: a copy of the parameter
dictionary with the `uuid` entry deleted and the `tags` entry replaced by
the space-joined tag string. -/
def createRequestParams (p : Params) : List (String × PValue) :=
  ((moduleParams p).filter (fun kv => kv.1 ≠ "uuid")).map
    (fun kv =>
      if kv.1 = "tags" then ("tags", PValue.str (String.intercalate " " p.tags))
      else kv)

namespace Checks

/-- The create-or-update operation `Checks.create`: in check mode exit unchanged with empty data;
otherwise POST the serialized parameters to `checks/`, extract the uuid
as `json_data.get("ping_url").split("/")[3]` (raising `AttributeError`
when the body has no `ping_url`, and `IndexError` when the split has no
fourth element), and only then dispatch on the status code: 200 updated,
201 created, anything else a failure naming the HTTP status. -/
def create (checkMode : Bool) (p : Params) (resp : Response) :
    ModuleResult × List Request :=
  if checkMode then (.exit false none (some []), [])
  else
    let req : Request := .post "checks/" (some (createRequestParams p))
    match jsonGet resp.json "ping_url" with
    | none => (.pyError "AttributeError", [req])
    | some ping_url =>
      match (pySplitSlash ping_url)[3]? with
      | none => (.pyError "IndexError", [req])
      | some uuid =>
        if resp.status_code = 200 then
          (.exit true (some ("Existing check " ++ uuid ++ " found and updated"))
            (some resp.json), [req])
        else if resp.status_code = 201 then
          (.exit true (some ("New check " ++ uuid ++ " created"))
            (some resp.json), [req])
        else
          (.fail false
            ("Failed to create or update delete check [HTTP " ++
              toString resp.status_code ++ "]"), [req])

/-- The delete operation `Checks.delete`: in check mode exit unchanged with empty data;
otherwise DELETE `checks/{uuid}` and dispatch on the status code:
200 deleted (changed), 404 not found (unchanged), anything else a failure
naming the uuid and the HTTP status. -/
def delete (checkMode : Bool) (p : Params) (resp : Response) :
    ModuleResult × List Request :=
  if checkMode then (.exit false none (some []), [])
  else
    let req : Request := .httpDelete ("checks/" ++ p.uuid)
    if resp.status_code = 200 then
      (.exit true (some ("Check " ++ p.uuid ++ " successfully deleted")) none, [req])
    else if resp.status_code = 404 then
      (.exit false (some ("Check " ++ p.uuid ++ " not found")) none, [req])
    else
      (.fail false
        ("Failed delete check " ++ p.uuid ++ " [HTTP " ++
          toString resp.status_code ++ "]"), [req])

/-- The pause operation `Checks.pause`: in check mode exit unchanged with empty data;
otherwise POST to `checks/{uuid}/pause` and dispatch on the status code:
200 paused (changed), 404 not found (unchanged), anything else a failure
whose message says "Failed delete check" (the source reuses the delete
wording) with the uuid and the HTTP status. -/
def pause (checkMode : Bool) (p : Params) (resp : Response) :
    ModuleResult × List Request :=
  if checkMode then (.exit false none (some []), [])
  else
    let req : Request := .post ("checks/" ++ p.uuid ++ "/pause") none
    if resp.status_code = 200 then
      (.exit true (some ("Check " ++ p.uuid ++ " successfully paused")) none, [req])
    else if resp.status_code = 404 then
      (.exit false (some ("Check " ++ p.uuid ++ " not found")) none, [req])
    else
      (.fail false
        ("Failed delete check " ++ p.uuid ++ " [HTTP " ++
          toString resp.status_code ++ "]"), [req])

end Checks

/-- The dispatcher `run`: pop the requested state and dispatch to exactly one of the
three operations; an impossible state (excluded by the argument-spec
choices) falls through and produces no output. -/
def run (checkMode : Bool) (p : Params) (resp : Response) :
    ModuleResult × List Request :=
  if p.state = "present" then Checks.create checkMode p resp
  else if p.state = "absent" then Checks.delete checkMode p resp
  else if p.state = "pause" then Checks.pause checkMode p resp
  else (.exit false none none, [])

/-- The parameter bag as supplied by the caller, before defaults: `none`
means the parameter was not supplied. -/
structure SuppliedParams where
  state : Option String := none
  name : Option String := none
  tags : Option (List String) := none
  desc : Option String := none
  timeout : Option Int := none
  grace : Option Int := none
  schedule : Option String := none
  tz : Option String := none
  manual_resume : Option Bool := none
  methods : Option String := none
  channels : Option String := none
  unique : Option (List String) := none
  uuid : Option String := none
deriving DecidableEq, Repr

/-- Fill in the defaults declared in the argument spec of `main`. -/
def applyDefaults (sp : SuppliedParams) : Params :=
  { state := sp.state.getD "present",
    name := sp.name.getD "",
    tags := sp.tags.getD [],
    desc := sp.desc.getD "",
    timeout := sp.timeout.getD 86400,
    grace := sp.grace.getD 3600,
    schedule := sp.schedule.getD "* * * * *",
    tz := sp.tz.getD "UTC",
    manual_resume := sp.manual_resume.getD false,
    methods := sp.methods.getD "",
    channels := sp.channels.getD "",
    unique := sp.unique.getD [],
    uuid := sp.uuid.getD "" }

/-- The `required_if` table declared in `main`: when `state` is `absent`
or `pause`, the listed parameters are required. -/
def required_if : List (String × String × List String) :=
  [("state", "absent", ["uuid"]), ("state", "pause", ["uuid"])]

/-- Whether the caller supplied the named parameter. -/
def suppliedKey (sp : SuppliedParams) (k : String) : Bool :=
  if k = "state" then sp.state.isSome
  else if k = "name" then sp.name.isSome
  else if k = "tags" then sp.tags.isSome
  else if k = "desc" then sp.desc.isSome
  else if k = "timeout" then sp.timeout.isSome
  else if k = "grace" then sp.grace.isSome
  else if k = "schedule" then sp.schedule.isSome
  else if k = "tz" then sp.tz.isSome
  else if k = "manual_resume" then sp.manual_resume.isSome
  else if k = "methods" then sp.methods.isSome
  else if k = "channels" then sp.channels.isSome
  else if k = "unique" then sp.unique.isSome
  else if k = "uuid" then sp.uuid.isSome
  else false

/-- Modelled from the spec: the invoking runner's `required_if`
validation (performed by the Ansible module framework, which is not part
of this repository's sources).  Per the spec, `uuid` is required when
`state` is `absent` or `pause`, and a missing `uuid` is a caller
precondition failure rejected before any network call.  Each row of the
`required_if` table declared in `main` requires its listed parameters to
be supplied whenever the requested state equals the row's trigger
value. -/
def checkRequiredIf (sp : SuppliedParams) : Bool :=
  required_if.all (fun r =>
    if (applyDefaults sp).state = r.2.1 then (r.2.2).all (fun k => suppliedKey sp k)
    else true)

namespace checks

/-- The entry point `main`: validate the supplied parameters against the argument spec
(in particular the `required_if` table), rejecting before any operation
— and hence before any network call — on failure; then dispatch via
`run`. -/
def main (checkMode : Bool) (sp : SuppliedParams) (resp : Response) :
    ModuleResult × List Request :=
  if checkRequiredIf sp then run checkMode (applyDefaults sp) resp
  else (.fail false "missing required arguments: uuid", [])

end checks

/-! ## Claims -/

/-- C1: For state=present outside check mode, a 201 response yields
changed=true and the message "New check {uuid} created" where uuid is
entry 3 of the slash-split of the response body's ping_url (the segment
following the third slash); on the spec's example input (state present,
name nightly-backup, timeout 86400, remote returning 201 with ping_url
"https://x/ping/UUID-1/") that segment is "ping", so the result is
changed=true with msg "New check ping created". -/
theorem create_201_message :
    (∀ (p : Params) (j : List (String × String)) (u seg : String),
        jsonGet j "ping_url" = some u →
        (pySplitSlash u)[3]? = some seg →
        (Checks.create false p ⟨201, j⟩).1 =
          .exit true (some ("New check " ++ seg ++ " created")) (some j)) ∧
    (checks.main false
        { state := some "present", name := some "nightly-backup", timeout := some 86400 }
        ⟨201, [("ping_url", "https://x/ping/UUID-1/")]⟩).1 =
      .exit true (some "New check ping created")
        (some [("ping_url", "https://x/ping/UUID-1/")]) := by
  refine ⟨?_, rfl⟩
  intro p j u seg hu hseg
  simp [Checks.create, hu, hseg]

/-- Witness for C1: the general 201 rule applied to a concrete response
whose ping_url is "https://hc-ping.com/u1", giving uuid "u1". -/
theorem create_201_message_witness :
    (Checks.create false (applyDefaults {}) ⟨201, [("ping_url", "https://hc-ping.com/u1")]⟩).1 =
      .exit true (some ("New check " ++ "u1" ++ " created"))
        (some [("ping_url", "https://hc-ping.com/u1")]) :=
  create_201_message.1 (applyDefaults {}) _ "https://hc-ping.com/u1" "u1" rfl rfl

/-- C1 counterexample: on the spec's example input the module reports
"New check ping created", not "New check UUID-1 created", because entry 3
of the slash-split of "https://x/ping/UUID-1/" is "ping". -/
theorem create_201_spec_example_refuted :
    (checks.main false
        { state := some "present", name := some "nightly-backup", timeout := some 86400 }
        ⟨201, [("ping_url", "https://x/ping/UUID-1/")]⟩).1 =
      .exit true (some "New check ping created")
        (some [("ping_url", "https://x/ping/UUID-1/")]) ∧
    "New check ping created" ≠ "New check UUID-1 created" :=
  ⟨rfl, by decide⟩

/-- C2: every invocation with state=absent or state=pause and no supplied
uuid is rejected by the required_if validation as a caller precondition
failure, with an empty request trace (no network call), in and out of
check mode. -/
theorem main_requires_uuid (cm : Bool) (sp : SuppliedParams) (resp : Response)
    (hstate : sp.state = some "absent" ∨ sp.state = some "pause")
    (huuid : sp.uuid = none) :
    checks.main cm sp resp = (.fail false "missing required arguments: uuid", []) := by
  rcases hstate with h | h <;>
    simp [checks.main, checkRequiredIf, required_if, applyDefaults, suppliedKey, h, huuid]

/-- Witness for C2: state=absent with no uuid supplied is rejected with
no request issued. -/
theorem main_requires_uuid_witness :
    checks.main false { state := some "absent" } ⟨404, []⟩ =
      (.fail false "missing required arguments: uuid", []) :=
  main_requires_uuid false { state := some "absent" } ⟨404, []⟩ (Or.inl rfl) rfl

/-- C3 counterexample: a 500 response whose body has no ping_url makes
the create operation raise AttributeError; the result is not a failure
outcome (fail_json) of any message, so the status code is not surfaced. -/
theorem create_error_status_refuted :
    (Checks.create false (applyDefaults {}) ⟨500, []⟩).1 = .pyError "AttributeError" ∧
    ∀ (b : Bool) (m : String),
      (Checks.create false (applyDefaults {}) ⟨500, []⟩).1 ≠ .fail b m := by
  have he : (Checks.create false (applyDefaults {}) ⟨500, []⟩).1 =
      .pyError "AttributeError" := rfl
  refine ⟨he, fun b m h => ?_⟩
  rw [he] at h
  exact ModuleResult.noConfusion h

/-- C3 (amended): for state=present outside check mode, a response whose
body carries a ping_url with at least four slash-segments and whose
status code is outside 200 and 201 yields a failure outcome with
changed=false and the HTTP status code surfaced in the message — in
particular never changed=true. -/
theorem create_error_status (p : Params) (j : List (String × String)) (u seg : String)
    (c : Nat) (hu : jsonGet j "ping_url" = some u)
    (hseg : (pySplitSlash u)[3]? = some seg) (h200 : c ≠ 200) (h201 : c ≠ 201) :
    (Checks.create false p ⟨c, j⟩).1 =
      .fail false ("Failed to create or update delete check [HTTP " ++ toString c ++ "]") := by
  simp [Checks.create, hu, hseg, h200, h201]

/-- Witness for C3: a 500 response with a well-formed ping_url body fails
with the status code in the message. -/
theorem create_error_status_witness :
    (Checks.create false (applyDefaults {})
        ⟨500, [("ping_url", "https://hc-ping.com/u1")]⟩).1 =
      .fail false ("Failed to create or update delete check [HTTP " ++ toString 500 ++ "]") :=
  create_error_status (applyDefaults {}) _ "https://hc-ping.com/u1" "u1" 500 rfl rfl
    (by decide) (by decide)

/-- C4: for state=absent and state=pause outside check mode, a status
code that is neither 200 nor 404 yields a failure outcome whose message
embeds the status code, and the (identical) failure message of both paths
literally contains the word "delete". -/
theorem delete_pause_failure_message (p : Params) (j : List (String × String)) (c : Nat)
    (h200 : c ≠ 200) (h404 : c ≠ 404) :
    (Checks.delete false p ⟨c, j⟩).1 =
      .fail false ("Failed delete check " ++ p.uuid ++ " [HTTP " ++ toString c ++ "]") ∧
    (Checks.pause false p ⟨c, j⟩).1 =
      .fail false ("Failed delete check " ++ p.uuid ++ " [HTTP " ++ toString c ++ "]") ∧
    (∃ pre post : String,
      "Failed delete check " ++ p.uuid ++ " [HTTP " ++ toString c ++ "]" =
        pre ++ "delete" ++ post) := by
  refine ⟨?_, ?_, "Failed ", " check " ++ p.uuid ++ " [HTTP " ++ toString c ++ "]", ?_⟩
  · simp [Checks.delete, h200, h404]
  · simp [Checks.pause, h200, h404]
  · rfl

/-- Witness for C4: a 500 response on the delete path fails with the
delete wording and the status code. -/
theorem delete_pause_failure_message_witness :
    (Checks.delete false (applyDefaults {}) ⟨500, []⟩).1 =
      .fail false ("Failed delete check " ++ (applyDefaults {}).uuid ++
        " [HTTP " ++ toString 500 ++ "]") :=
  (delete_pause_failure_message (applyDefaults {}) [] 500 (by decide) (by decide)).1

/-- C5: in check mode, each of the three states exits with changed=false
(and empty data) and issues no request. -/
theorem check_mode_no_network (p : Params) (resp : Response) :
    run true { p with state := "present" } resp = (.exit false none (some []), []) ∧
    run true { p with state := "absent" } resp = (.exit false none (some []), []) ∧
    run true { p with state := "pause" } resp = (.exit false none (some []), []) :=
  ⟨rfl, rfl, rfl⟩

/-- C6: for state=absent and state=pause outside check mode, a 404
response exits (a non-failure outcome) with changed=false and a
"not found" message; on the spec's example (state absent, uuid abc-123,
remote returning 404) the result is changed=false with msg
"Check abc-123 not found". -/
theorem delete_pause_404 (p : Params) (j : List (String × String)) :
    Checks.delete false p ⟨404, j⟩ =
      (.exit false (some ("Check " ++ p.uuid ++ " not found")) none,
        [.httpDelete ("checks/" ++ p.uuid)]) ∧
    Checks.pause false p ⟨404, j⟩ =
      (.exit false (some ("Check " ++ p.uuid ++ " not found")) none,
        [.post ("checks/" ++ p.uuid ++ "/pause") none]) ∧
    checks.main false { state := some "absent", uuid := some "abc-123" } ⟨404, j⟩ =
      (.exit false (some "Check abc-123 not found") none, [.httpDelete "checks/abc-123"]) :=
  ⟨rfl, rfl, rfl⟩

/-- C7: for state=absent and state=pause outside check mode, a 200
response exits successfully with changed=true. -/
theorem delete_pause_200 (p : Params) (j : List (String × String)) :
    Checks.delete false p ⟨200, j⟩ =
      (.exit true (some ("Check " ++ p.uuid ++ " successfully deleted")) none,
        [.httpDelete ("checks/" ++ p.uuid)]) ∧
    Checks.pause false p ⟨200, j⟩ =
      (.exit true (some ("Check " ++ p.uuid ++ " successfully paused")) none,
        [.post ("checks/" ++ p.uuid ++ "/pause") none]) :=
  ⟨rfl, rfl⟩

/-- C8: for state=present outside check mode, a 200 response yields
changed=true and an "updated" message containing the identifier extracted
from ping_url by the same slash-split rule as the 201 case, with the full
response body as the result data. -/
theorem create_200_updated (p : Params) (j : List (String × String)) (u seg : String)
    (hu : jsonGet j "ping_url" = some u) (hseg : (pySplitSlash u)[3]? = some seg) :
    (Checks.create false p ⟨200, j⟩).1 =
      .exit true (some ("Existing check " ++ seg ++ " found and updated")) (some j) := by
  simp [Checks.create, hu, hseg]

/-- Witness for C8: a concrete 200 response with ping_url
"https://hc-ping.com/u1" reports the update of check "u1". -/
theorem create_200_updated_witness :
    (Checks.create false (applyDefaults {}) ⟨200, [("ping_url", "https://hc-ping.com/u1")]⟩).1 =
      .exit true (some ("Existing check " ++ "u1" ++ " found and updated"))
        (some [("ping_url", "https://hc-ping.com/u1")]) :=
  create_200_updated (applyDefaults {}) _ "https://hc-ping.com/u1" "u1" rfl rfl

/-- C9: the create-or-update request body holds every parameter of the
bag except uuid, in order, with tags joined into one space-separated
string; no uuid entry is present, and the single outbound request of the
create path is a POST of exactly that body to checks/. -/
theorem create_request_body (p : Params) (resp : Response) :
    createRequestParams p =
      [("name", .str p.name),
       ("tags", .str (String.intercalate " " p.tags)),
       ("desc", .str p.desc),
       ("timeout", .int p.timeout),
       ("grace", .int p.grace),
       ("schedule", .str p.schedule),
       ("tz", .str p.tz),
       ("manual_resume", .bool p.manual_resume),
       ("methods", .str p.methods),
       ("channels", .str p.channels),
       ("unique", .strList p.unique)] ∧
    (createRequestParams p).find? (fun kv => kv.1 = "uuid") = none ∧
    (Checks.create false p resp).2 = [.post "checks/" (some (createRequestParams p))] := by
  refine ⟨rfl, rfl, ?_⟩
  simp only [Checks.create, Bool.false_eq_true, if_false]
  split
  · rfl
  · split
    · rfl
    · split
      · rfl
      · split <;> rfl

/-- C10: for state=present outside check mode, whenever the response body
has no ping_url field the create operation raises AttributeError (the
identifier extraction precedes the status-code dispatch), for every
status code, instead of reaching the failure or success branches. -/
theorem create_missing_ping_url (p : Params) (c : Nat) (j : List (String × String))
    (h : jsonGet j "ping_url" = none) :
    Checks.create false p ⟨c, j⟩ =
      (.pyError "AttributeError", [.post "checks/" (some (createRequestParams p))]) := by
  simp [Checks.create, h]

/-- Witness for C10: a 500 response with an empty body raises
AttributeError after the POST. -/
theorem create_missing_ping_url_witness :
    Checks.create false (applyDefaults {}) ⟨500, []⟩ =
      (.pyError "AttributeError",
        [.post "checks/" (some (createRequestParams (applyDefaults {})))]) :=
  create_missing_ping_url (applyDefaults {}) 500 [] rfl
